import Mathlib

/-!
Verification of the WeatherWise repository core logic: the condition-code
icon resolver, the WeatherAPI fetch layer, the debounced city-suggestion
pipeline of the search form, and the weather display guard.

Each definition is a shallow embedding of the corresponding TypeScript
source. File references:
  src/components/weather/weather-icon.tsx   (condition resolver)
  src/lib/weather-api.ts                    (fetch layer)
  src/components/weather/city-search-form.tsx (debounced suggestion pipeline)
  src/components/weather/weather-display.tsx  (display guard)
  src/app/page.tsx                          (startup API key check)
-/

namespace WeatherWise

/-! ## Icons (lucide-react icons imported by weather-icon.tsx) -/

/-- The icon components imported by weather-icon.tsx from lucide-react. -/
inductive Icon where
  | sun
  | moon
  | cloudSun
  | cloudMoon
  | cloud
  | cloudy
  | cloudRain
  | cloudDrizzle
  | cloudLightning
  | cloudSnow
  | cloudFog
  | wind
  | thermometerSnowflake
  | thermometerSun
deriving DecidableEq, Repr

/-- An entry of the icon table: either a single icon used regardless of
day or night, or a pair selected by the isDay flag.  In the TypeScript
source this is the union type of the values of weatherApiIconMap. -/
inductive IconEntry where
  | single (icon : Icon)
  | dayNight (day : Icon) (night : Icon)
deriving DecidableEq, Repr

/-- The weatherApiIconMap table of weather-icon.tsx, keyed by the
WeatherAPI.com condition code.  Codes absent from the table map to none
(reading an absent key of a JS record yields undefined). -/
def weatherApiIconMap : Int → Option IconEntry
  | 1000 => some (.dayNight .sun .moon)
  | 1003 => some (.dayNight .cloudSun .cloudMoon)
  | 1006 => some (.single .cloud)
  | 1009 => some (.single .cloudy)
  | 1030 => some (.single .cloudFog)
  | 1135 => some (.single .cloudFog)
  | 1147 => some (.single .cloudFog)
  | 1063 => some (.dayNight .cloudDrizzle .cloudDrizzle)
  | 1150 => some (.dayNight .cloudDrizzle .cloudDrizzle)
  | 1153 => some (.single .cloudDrizzle)
  | 1180 => some (.dayNight .cloudDrizzle .cloudDrizzle)
  | 1183 => some (.single .cloudDrizzle)
  | 1186 => some (.dayNight .cloudRain .cloudRain)
  | 1189 => some (.single .cloudRain)
  | 1168 => some (.single .cloudSnow)
  | 1171 => some (.single .cloudSnow)
  | 1192 => some (.dayNight .cloudRain .cloudRain)
  | 1195 => some (.single .cloudRain)
  | 1069 => some (.dayNight .cloudDrizzle .cloudDrizzle)
  | 1204 => some (.single .cloudDrizzle)
  | 1207 => some (.single .cloudDrizzle)
  | 1240 => some (.dayNight .cloudRain .cloudRain)
  | 1243 => some (.dayNight .cloudRain .cloudRain)
  | 1246 => some (.single .cloudRain)
  | 1066 => some (.dayNight .cloudSnow .cloudSnow)
  | 1114 => some (.single .cloudSnow)
  | 1117 => some (.single .cloudSnow)
  | 1210 => some (.dayNight .cloudSnow .cloudSnow)
  | 1213 => some (.single .cloudSnow)
  | 1216 => some (.dayNight .cloudSnow .cloudSnow)
  | 1219 => some (.single .cloudSnow)
  | 1222 => some (.dayNight .cloudSnow .cloudSnow)
  | 1225 => some (.single .cloudSnow)
  | 1237 => some (.single .cloudSnow)
  | 1249 => some (.single .cloudSnow)
  | 1252 => some (.single .cloudSnow)
  | 1255 => some (.dayNight .cloudSnow .cloudSnow)
  | 1258 => some (.single .cloudSnow)
  | 1261 => some (.single .cloudSnow)
  | 1264 => some (.single .cloudSnow)
  | 1087 => some (.single .cloudLightning)
  | 1273 => some (.single .cloudLightning)
  | 1276 => some (.single .cloudLightning)
  | 1279 => some (.single .cloudLightning)
  | 1282 => some (.single .cloudLightning)
  | _ => none

/-- The icon selection logic of the WeatherIcon component
(weather-icon.tsx).  The source sets a day or night default, overrides
it by the table entry when the code is present, and finally returns one
of the fixed special icons early when the code is one of the three
sentinel values -100, -101, -102. -/
def resolveIcon (weatherApiConditionCode : Int) (isDay : Bool) : Icon :=
  let defaultIcon : Icon := if isDay then .sun else .moon
  let selectedIcon : Icon :=
    match weatherApiIconMap weatherApiConditionCode with
    | some (.dayNight d n) => if isDay then d else n
    | some (.single i) => i
    | none => defaultIcon
  if weatherApiConditionCode = -100 then .thermometerSun
  else if weatherApiConditionCode = -101 then .thermometerSnowflake
  else if weatherApiConditionCode = -102 then .wind
  else selectedIcon

/-- Claim C4: for every condition code that is absent from the icon
mapping table and is not one of the sentinel codes -100, -101, -102,
and for every value of isDay, the resolver returns the default icon:
Sun when isDay is true and Moon otherwise.  Totality of resolveIcon is
intrinsic: it is a total Lean function, so no input produces an
undefined result. -/
theorem resolveIcon_unknown_code_defaults (code : Int) (isDay : Bool)
    (hmap : weatherApiIconMap code = none)
    (h1 : code ≠ -100) (h2 : code ≠ -101) (h3 : code ≠ -102) :
    resolveIcon code isDay = if isDay then Icon.sun else Icon.moon := by
  simp only [resolveIcon, hmap, if_neg h1, if_neg h2, if_neg h3]

/-- Witness for C4 at the concrete unknown code 999999. -/
theorem resolveIcon_unknown_code_defaults_witness :
    weatherApiIconMap 999999 = none ∧
    resolveIcon 999999 true = Icon.sun ∧ resolveIcon 999999 false = Icon.moon := by
  refine ⟨by decide, ?_, ?_⟩
  · simpa using resolveIcon_unknown_code_defaults 999999 true (by decide)
      (by decide) (by decide) (by decide)
  · simpa using resolveIcon_unknown_code_defaults 999999 false (by decide)
      (by decide) (by decide) (by decide)

/-- Claim C5: for each of the three sentinel condition codes (-100 hot,
-101 cold, -102 wind) and for every value of isDay, the resolver
returns the corresponding fixed special icon, independent of isDay.
The sentinel branches return early, before the table result is used,
so they take precedence over any table lookup. -/
theorem resolveIcon_sentinel_codes (isDay : Bool) :
    resolveIcon (-100) isDay = Icon.thermometerSun ∧
    resolveIcon (-101) isDay = Icon.thermometerSnowflake ∧
    resolveIcon (-102) isDay = Icon.wind := by
  cases isDay <;> exact ⟨by decide, by decide, by decide⟩

/-! ## Data model (src/types/weather.ts) -/

/-- CitySuggestion record returned by the search endpoint.  JS numbers
are modelled as rationals. -/
structure CitySuggestion where
  id : Nat
  name : String
  region : String
  country : String
  lat : Rat
  lon : Rat
  url : String
deriving DecidableEq, Repr

/-- Error payload of a WeatherAPI error response. -/
structure WeatherError where
  code : Int
  message : String
deriving DecidableEq, Repr

/-- WeatherApiLocation of types/weather.ts. -/
structure WeatherApiLocation where
  name : String
  region : String
  country : String
  lat : Rat
  lon : Rat
  tz_id : String
  localtime_epoch : Int
  localtime : String
deriving DecidableEq, Repr

/-- WeatherApiCondition of types/weather.ts. -/
structure WeatherApiCondition where
  text : String
  icon : String
  code : Int
deriving DecidableEq, Repr

/-- WeatherApiCurrent of types/weather.ts. -/
structure WeatherApiCurrent where
  last_updated_epoch : Int
  last_updated : String
  temp_c : Rat
  temp_f : Rat
  is_day : Int
  condition : WeatherApiCondition
  wind_mph : Rat
  wind_kph : Rat
  wind_degree : Int
  wind_dir : String
  pressure_mb : Rat
  pressure_in : Rat
  precip_mm : Rat
  precip_in : Rat
  humidity : Rat
  cloud : Rat
  feelslike_c : Rat
  feelslike_f : Rat
  vis_km : Rat
  vis_miles : Rat
  uv : Rat
  gust_mph : Rat
  gust_kph : Rat
deriving DecidableEq, Repr

/-- WeatherApiAstro of types/weather.ts. -/
structure WeatherApiAstro where
  sunrise : String
  sunset : String
  moonrise : String
  moonset : String
  moon_phase : String
  moon_illumination : String
deriving DecidableEq, Repr

/-- WeatherApiDayForecast of types/weather.ts. -/
structure WeatherApiDayForecast where
  maxtemp_c : Rat
  maxtemp_f : Rat
  mintemp_c : Rat
  mintemp_f : Rat
  avgtemp_c : Rat
  avgtemp_f : Rat
  maxwind_mph : Rat
  maxwind_kph : Rat
  totalprecip_mm : Rat
  totalprecip_in : Rat
  avgvis_km : Rat
  avgvis_miles : Rat
  avghumidity : Rat
  daily_will_it_rain : Int
  daily_chance_of_rain : String
  daily_will_it_snow : Int
  daily_chance_of_snow : String
  condition : WeatherApiCondition
  uv : Rat
deriving DecidableEq, Repr

/-- WeatherApiForecastDayItem of types/weather.ts.  The hour field has
TypeScript type any[] and is read by no code in the repository, so it
is not modelled. -/
structure WeatherApiForecastDayItem where
  date : String
  date_epoch : Int
  day : WeatherApiDayForecast
  astro : WeatherApiAstro
deriving DecidableEq, Repr

/-- WeatherApiForecast of types/weather.ts. -/
structure WeatherApiForecast where
  forecastday : List WeatherApiForecastDayItem
deriving DecidableEq, Repr

/-- WeatherData of types/weather.ts.  The TypeScript interface declares
location, current and forecast as required, but the fetch layer returns
error-only values through an unchecked cast, and WeatherDisplay
re-checks each part for presence at runtime; the Option fields model
that runtime nullability. -/
structure WeatherData where
  location : Option WeatherApiLocation
  current : Option WeatherApiCurrent
  forecast : Option WeatherApiForecast
  error : Option WeatherError
deriving DecidableEq, Repr

/-! ## Fetch layer (src/lib/weather-api.ts)

The two exported functions are async and depend on the ambient API key
and the behaviour of the network.  They are embedded as pure functions
over an explicit key and an explicit outcome of the single fetch call
they perform: the fetch either rejects (network error) or yields a
response with an ok flag, a status, and a body whose JSON parse either
succeeds with a typed value or fails. -/

/-- Outcome of one fetch call: a response whose body parses to a value
of type b or fails to parse, or a transport-level rejection. -/
inductive HttpOutcome (b : Type) where
  | response (ok : Bool) (status : Int) (body : Except String b)
  | netError (msg : String)
deriving Repr

/-- The behaviour of the JS String.prototype.trim call used by
fetchCitySuggestions: strip leading and trailing whitespace.  It is
defined structurally over the character list so that concrete inputs
evaluate inside proofs. -/
def trimString (s : String) : String :=
  String.mk (((s.data.dropWhile Char.isWhitespace).reverse.dropWhile
    Char.isWhitespace).reverse)

/-- The test a JS falsy check performs on the API key string read from
the environment: the key is missing when the variable is undefined or
the empty string. -/
def isMissingKey : Option String → Bool
  | none => true
  | some s => s = ""

/-- The first argument pair of fetchWeatherData: cityOrLat is a string
or a number, with an optional numeric lon.  The source distinguishes
number with number, string, and every other combination. -/
inductive WeatherQueryInput where
  | latLon (lat : Rat) (lon : Rat)
  | city (name : String)
  | invalid
deriving DecidableEq, Repr

/-- A WeatherData value carrying only an error, as produced by the
error returns of fetchWeatherData through the unchecked cast. -/
def errorOnly (e : WeatherError) : WeatherData :=
  { location := none, current := none, forecast := none, error := some e }

/-- JS disjunction for the error code: data.error?.code when present
and truthy (nonzero), otherwise the response status. -/
def jsOrCode : Option Int → Int → Int
  | some v, fallback => if v = 0 then fallback else v
  | none, fallback => fallback

/-- JS disjunction for the error message: data.error?.message when
present and truthy (nonempty), otherwise the fallback text. -/
def jsOrMessage : Option String → String → String
  | some s, fallback => if s = "" then fallback else s
  | none, fallback => fallback

/-- fetchWeatherData of weather-api.ts.  Every await in the function
body sits inside the try block, so all failures are converted to
error-shaped WeatherData values and the function never rejects, which
is why the embedding is total.  URL construction is not modelled; no
claim depends on it. -/
def fetchWeatherData (apiKey : Option String) (q : WeatherQueryInput)
    (net : HttpOutcome WeatherData) : WeatherData :=
  if isMissingKey apiKey then
    errorOnly ⟨-1, "WeatherAPI.com API key is not configured."⟩
  else
    match q with
    | .invalid => errorOnly ⟨-2, "Invalid parameters for fetching weather data."⟩
    | _ =>
      match net with
      | .netError msg => errorOnly ⟨-3, "Network or parsing error: " ++ msg⟩
      | .response ok status body =>
        match body with
        | .error msg => errorOnly ⟨-3, "Network or parsing error: " ++ msg⟩
        | .ok data =>
          if !ok || data.error.isSome then
            errorOnly ⟨jsOrCode (data.error.map (fun e => e.code)) status,
              jsOrMessage (data.error.map (fun e => e.message))
                ("Failed to fetch weather data. Status: " ++ toString status)⟩
          else data

/-- fetchCitySuggestions of weather-api.ts.  The Except result models
the promise: ok is a resolved array, error is a rejection.  A transport
rejection is caught by the try block and yields an empty list; a parse
failure of a non-ok response body is absorbed by the inline catch on
that json call; but the final line returns the response.json() promise
without awaiting it inside the try block, so a parse failure of an ok
response rejects the promise returned to the caller. -/
def fetchCitySuggestions (apiKey : Option String) (query : String)
    (net : HttpOutcome (List CitySuggestion)) : Except String (List CitySuggestion) :=
  if isMissingKey apiKey then .ok []
  else if trimString query = "" ∨ query.length < 3 then .ok []
  else
    match net with
    | .netError _ => .ok []
    | .response ok _ body =>
      if !ok then .ok []
      else
        match body with
        | .ok results => .ok results
        | .error msg => .error msg

/-! ## Startup API key check (src/app/page.tsx) -/

/-- Toast payload accepted by the useToast hook. -/
structure ToastMessage where
  variant : String
  title : String
  description : String
  duration : Option Int
deriving DecidableEq, Repr

/-- The message shown by page.tsx when the key is missing. -/
def apiKeyErrorMsg : String :=
  "WeatherAPI.com API key is not configured. Please set NEXT_PUBLIC_WEATHERAPI_COM_API_KEY in your environment variables."

/-- Result of the mount effect of HomePage: the toasts it fires and the
error state it sets. -/
structure HomeMountResult where
  toasts : List ToastMessage
  pageError : Option String
deriving DecidableEq, Repr

/-- The HomePage mount effect of page.tsx: it runs once on mount and,
when the API key environment variable is missing, fires one destructive
toast with a ten second duration and records the message in the page
error state, which renders a persistent error panel. -/
def homePageMountEffect (apiKey : Option String) : HomeMountResult :=
  if isMissingKey apiKey then
    { toasts := [⟨"destructive", "API Key Missing", apiKeyErrorMsg, some 10000⟩],
      pageError := some apiKeyErrorMsg }
  else
    { toasts := [], pageError := none }

/-- The failing network outcomes for the weather fetch: a transport or
parse rejection, a non-ok HTTP response, or an ok response whose
payload carries an API error object. -/
def weatherFetchFails : HttpOutcome WeatherData → Prop
  | .netError _ => True
  | .response ok _ body =>
    ok = false ∨ (∃ msg, body = .error msg) ∨ (∃ d, body = .ok d ∧ d.error.isSome)

/-- Claim C7: for every failing weather-data fetch (HTTP error status,
API-reported error payload, or network/parse exception),
fetchWeatherData returns a value containing a structured error object
with a message field rather than throwing: the embedding is total, and
on every failing outcome the error field is populated. -/
theorem fetchWeatherData_failures_return_error (k : String)
    (q : WeatherQueryInput) (net : HttpOutcome WeatherData)
    (hfail : weatherFetchFails net) :
    ∃ e, (fetchWeatherData (some k) q net).error = some e := by
  rw [← Option.isSome_iff_exists]
  by_cases hk : k = ""
  · simp [fetchWeatherData, isMissingKey, hk, errorOnly]
  · cases net with
    | netError msg =>
      cases q <;> simp [fetchWeatherData, isMissingKey, hk, errorOnly]
    | response ok status body =>
      cases body with
      | error msg =>
        cases q <;> simp [fetchWeatherData, isMissingKey, hk, errorOnly]
      | ok d =>
        have hcond : (!ok || d.error.isSome) = true := by
          rcases hfail with h | h | h
          · simp [h]
          · rcases h with ⟨msg, hmsg⟩; cases hmsg
          · rcases h with ⟨d2, hd2, herr⟩
            cases hd2; simp [herr]
        cases q <;> simp [fetchWeatherData, isMissingKey, hk, hcond, errorOnly]

/-- Witness for C7 at a concrete non-ok HTTP response. -/
theorem fetchWeatherData_failures_return_error_witness :
    ∃ e, (fetchWeatherData (some "key") (.city "London")
      (.response false 500 (.ok ⟨none, none, none, none⟩))).error = some e :=
  fetchWeatherData_failures_return_error "key" (.city "London")
    (.response false 500 (.ok ⟨none, none, none, none⟩)) (Or.inl rfl)

/-- Claim C8: when the API credential is not configured, the HomePage
mount effect fires exactly one notification (with a ten second duration
and a persistent page error state), fetchWeatherData returns a
structured error result with code -1, and fetchCitySuggestions resolves
to the empty list; neither lookup throws. -/
theorem missing_api_key_graceful (q : WeatherQueryInput)
    (net : HttpOutcome WeatherData) (q2 : String)
    (net2 : HttpOutcome (List CitySuggestion)) :
    (homePageMountEffect none).toasts =
      [⟨"destructive", "API Key Missing", apiKeyErrorMsg, some 10000⟩] ∧
    (homePageMountEffect none).pageError = some apiKeyErrorMsg ∧
    (fetchWeatherData none q net).error =
      some ⟨-1, "WeatherAPI.com API key is not configured."⟩ ∧
    fetchCitySuggestions none q2 net2 = Except.ok [] :=
  ⟨rfl, rfl, rfl, rfl⟩

/-- Claim C9, counterexample: when the HTTP response is ok but its body
fails to parse, fetchCitySuggestions rejects instead of resolving to an
array, because the final response.json() promise is returned without
being awaited inside the try block. -/
theorem fetchCitySuggestions_can_reject :
    fetchCitySuggestions (some "key") "London"
      (.response true 200 (.error "Unexpected token in JSON")) =
      Except.error "Unexpected token in JSON" := by
  unfold fetchCitySuggestions
  rw [if_neg (by decide), if_neg (by decide)]
  rfl

/-- Claim C9, amended: fetchCitySuggestions resolves to an array for
every input and outcome except an ok response whose body fails to
parse, in which case it rejects with the parse failure; the catch
branch of debouncedFetchSuggestions is therefore reachable exactly
through that case. -/
theorem fetchCitySuggestions_rejects_only_on_ok_parse_failure
    (apiKey : Option String) (query : String)
    (net : HttpOutcome (List CitySuggestion)) :
    (∃ l, fetchCitySuggestions apiKey query net = .ok l) ∨
    (∃ status msg, net = .response true status (.error msg) ∧
      fetchCitySuggestions apiKey query net = .error msg) := by
  unfold fetchCitySuggestions
  split
  · exact Or.inl ⟨[], rfl⟩
  · split
    · exact Or.inl ⟨[], rfl⟩
    · cases net with
      | netError msg => exact Or.inl ⟨[], rfl⟩
      | response ok status body =>
        cases ok with
        | false => exact Or.inl ⟨[], by simp⟩
        | true =>
          cases body with
          | ok results => exact Or.inl ⟨results, by simp⟩
          | error msg => exact Or.inr ⟨status, msg, rfl, by simp⟩

/-! ## CitySearchForm (src/components/weather/city-search-form.tsx)

The component state consists of the four useState hooks.  The debounce
effect, the timer callback, and the fetch completion are modelled as an
event-driven machine: the component runs on the single-threaded UI
event loop, so each event (input change, timer firing, fetch
completion) applies its state updates atomically. -/

/-- The four useState hooks of CitySearchForm. -/
structure SearchState where
  query : String
  suggestions : List CitySuggestion
  isLoadingSuggestions : Bool
  showSuggestions : Bool
deriving DecidableEq, Repr

/-- The initial hook values. -/
def initialSearchState : SearchState :=
  { query := "", suggestions := [], isLoadingSuggestions := false,
    showSuggestions := false }

/-- How the awaited fetchCitySuggestions call ends from the point of
view of the component: the promise resolves with a results array or
rejects. -/
inductive SuggestionFetchResult where
  | resolved (results : List CitySuggestion)
  | rejected (msg : String)
deriving DecidableEq, Repr

/-- The toast fired by the catch branch of debouncedFetchSuggestions. -/
def suggestionErrorToast : ToastMessage :=
  { variant := "destructive", title := "Error",
    description := "Could not fetch city suggestions. Please try again later.",
    duration := none }

/-- The tail of debouncedFetchSuggestions after the awaited fetch
settles: on resolution the results are stored and the dropdown is shown
iff the array is nonempty; on rejection the catch branch fires the
error toast and clears; the finally branch resets the loading flag.
The source applies the response to the visible state without checking
whether a newer request has been issued in the meantime. -/
def applySuggestionCompletion (st : SearchState) (r : SuggestionFetchResult) :
    SearchState × List ToastMessage :=
  match r with
  | .resolved results =>
    ({ st with suggestions := results,
               showSuggestions := decide (0 < results.length),
               isLoadingSuggestions := false }, [])
  | .rejected _ =>
    ({ st with suggestions := [], showSuggestions := false,
               isLoadingSuggestions := false }, [suggestionErrorToast])

/-- handleInputChange of CitySearchForm: store the new query, then show
the dropdown when the query has at least three characters and otherwise
hide it and clear the suggestions at once. -/
def handleInputChange (st : SearchState) (newQuery : String) : SearchState :=
  let st1 := { st with query := newQuery }
  if 3 ≤ newQuery.length then { st1 with showSuggestions := true }
  else { st1 with showSuggestions := false, suggestions := [] }

/-- Routing of the fetchCitySuggestions promise into the component:
resolution carries the array and rejection carries the failure
message. -/
def suggestionRequestOutcome (apiKey : Option String) (q : String)
    (net : HttpOutcome (List CitySuggestion)) : SuggestionFetchResult :=
  match fetchCitySuggestions apiKey q net with
  | .ok l => .resolved l
  | .error msg => .rejected msg

/-- One full run of debouncedFetchSuggestions for query q, from entry
to the settling of its fetch: queries below three characters clear and
hide immediately without calling the API; otherwise the loading flag is
set and the completion of the underlying fetch is applied. -/
def debouncedFetchSuggestionsRun (st : SearchState) (apiKey : Option String)
    (q : String) (net : HttpOutcome (List CitySuggestion)) :
    SearchState × List ToastMessage :=
  if q.length < 3 then
    ({ st with suggestions := [], showSuggestions := false }, [])
  else
    applySuggestionCompletion { st with isLoadingSuggestions := true }
      (suggestionRequestOutcome apiKey q net)

/-- The debounce delay of the effect in CitySearchForm. -/
def debounceDelayMs : Nat := 500

/-- The machine encompassing the component state, the pending debounce
timer of the effect (deadline and the query captured by the closure),
the set of in-flight suggestion requests, the log of issued requests,
and the toasts fired so far.  Request identifiers are allocated from a
counter so that completions can be named by the event. -/
structure SearchMachine where
  st : SearchState
  debounceTimer : Option (Nat × String)
  inFlight : List (Nat × String)
  issued : List (Nat × String)
  nextRequestId : Nat
  toasts : List ToastMessage
deriving DecidableEq, Repr

/-- Machine state right after mount at time 0: the effect also runs on
mount with the initial empty query and schedules a timer for it. -/
def initialMachine : SearchMachine :=
  { st := initialSearchState,
    debounceTimer := some (debounceDelayMs, ""),
    inFlight := [], issued := [], nextRequestId := 0, toasts := [] }

/-- The events that drive CitySearchForm, each stamped with the time at
which it occurs. -/
inductive SearchEvent where
  | input (t : Nat) (s : String)
  | debounceFire (t : Nat)
  | fetchComplete (t : Nat) (id : Nat) (r : SuggestionFetchResult)
deriving DecidableEq, Repr

/-- One event step of the machine; none when the event is not enabled.
An input runs handleInputChange, after which the effect cleanup clears
the previous timeout and the effect schedules a fresh 500 ms timeout
capturing the new query.  A timer may fire only strictly after its
deadline and runs debouncedFetchSuggestions with the captured query:
below three characters it clears and hides, otherwise it sets the
loading flag and issues a request.  A fetch completion is enabled for
any in-flight request and applies its response to the visible state:
the source has no request identity guard, so late responses of
superseded requests are applied like any other. -/
def step (m : SearchMachine) : SearchEvent → Option SearchMachine
  | .input t s =>
    some { m with st := handleInputChange m.st s,
                  debounceTimer := some (t + debounceDelayMs, s) }
  | .debounceFire t =>
    match m.debounceTimer with
    | none => none
    | some (deadline, q) =>
      if deadline < t then
        if q.length < 3 then
          some { m with
            st := { m.st with suggestions := [], showSuggestions := false },
            debounceTimer := none }
        else
          some { m with
            st := { m.st with isLoadingSuggestions := true },
            debounceTimer := none,
            inFlight := m.inFlight ++ [(m.nextRequestId, q)],
            issued := m.issued ++ [(m.nextRequestId, q)],
            nextRequestId := m.nextRequestId + 1 }
      else none
  | .fetchComplete _ id r =>
    if m.inFlight.any (fun p => p.1 == id) then
      some { m with
        st := (applySuggestionCompletion m.st r).1,
        inFlight := m.inFlight.filter (fun p => p.1 != id),
        toasts := m.toasts ++ (applySuggestionCompletion m.st r).2 }
    else none

/-- Run the machine from a given state over a list of events, failing
when some event is not enabled. -/
def runFrom (m : SearchMachine) : List SearchEvent → Option SearchMachine
  | [] => some m
  | e :: es =>
    match step m e with
    | none => none
    | some m2 => runFrom m2 es

/-- Run the machine from the mount state. -/
def run (events : List SearchEvent) : Option SearchMachine :=
  runFrom initialMachine events

/-- A concrete suggestion, a London result. -/
def londonCity : CitySuggestion :=
  { id := 2801268, name := "London", region := "City of London, Greater London",
    country := "United Kingdom", lat := 51, lon := 0, url := "london" }

/-- A concrete suggestion, a Londrina result, standing in for what the
search endpoint returns for the shorter query. -/
def londrinaCity : CitySuggestion :=
  { id := 305546, name := "Londrina", region := "Parana", country := "Brazil",
    lat := -23, lon := -51, url := "londrina" }

/-- The interleaving of claim C1: a request for Lon is issued, then a
request for London; the London response arrives and is applied first,
and the stale Lon response arrives last. -/
def staleResponseTrace : List SearchEvent :=
  [ .input 0 "Lon",
    .debounceFire 501,
    .input 600 "London",
    .debounceFire 1101,
    .fetchComplete 1200 1 (.resolved [londonCity]),
    .fetchComplete 1300 0 (.resolved [londrinaCity]) ]

/-- Claim C1 fails on the code: in the interleaving where the request
for Lon (id 0) is issued before the request for London (id 1), the
London response is applied to the visible state, and the Lon response
arrives later, the component overwrites the suggestion list with the
stale Lon result, because the completion handler applies every
response without a request identity guard.  The final suggestion list
is the Lon result and differs from the London result. -/
theorem stale_response_overwrites_newer_result :
    ∃ m, run staleResponseTrace = some m ∧
      m.issued = [(0, "Lon"), (1, "London")] ∧
      m.st.suggestions = [londrinaCity] ∧
      ([londrinaCity] : List CitySuggestion) ≠ [londonCity] := by
  refine ⟨_, rfl, rfl, rfl, ?_⟩
  intro h
  have hnames := congrArg (fun l => l.map (fun c => c.name)) h
  simp [londrinaCity, londonCity] at hnames

/-- Helper: every step preserves the invariant that all issued
requests carry a query of at least three characters. -/
theorem step_issued_min_length (m m2 : SearchMachine) (e : SearchEvent)
    (h : m.issued.all (fun p => decide (3 ≤ p.2.length)) = true)
    (hstep : step m e = some m2) :
    m2.issued.all (fun p => decide (3 ≤ p.2.length)) = true := by
  cases e with
  | input t s =>
    simp only [step, Option.some.injEq] at hstep
    subst hstep; simpa using h
  | debounceFire t =>
    simp only [step] at hstep
    split at hstep
    · cases hstep
    · split at hstep
      · split at hstep
        · cases hstep; simpa using h
        · cases hstep
          simp only [List.all_append, List.all_cons, List.all_nil,
            Bool.and_true, Bool.and_eq_true, decide_eq_true_eq]
          exact ⟨h, by omega⟩
      · cases hstep
  | fetchComplete t id r =>
    simp only [step] at hstep
    by_cases hin : m.inFlight.any (fun p => p.1 == id) = true
    · rw [if_pos hin] at hstep; cases hstep; simpa using h
    · rw [if_neg hin] at hstep; cases hstep

/-- Helper: the issued-query length invariant along any run. -/
theorem runFrom_issued_min_length (es : List SearchEvent) :
    ∀ m0 m : SearchMachine,
      m0.issued.all (fun p => decide (3 ≤ p.2.length)) = true →
      runFrom m0 es = some m →
      m.issued.all (fun p => decide (3 ≤ p.2.length)) = true := by
  induction es with
  | nil =>
    intro m0 m h hrun
    simp only [runFrom, Option.some.injEq] at hrun
    subst hrun; exact h
  | cons e es ih =>
    intro m0 m h hrun
    simp only [runFrom] at hrun
    cases hstep : step m0 e with
    | none => rw [hstep] at hrun; cases hrun
    | some m1 =>
      rw [hstep] at hrun
      exact ih m1 m (step_issued_min_length m0 m1 e h hstep) hrun

/-- Claim C3: an input event with a query shorter than three characters
clears the suggestion list and hides the dropdown in the very same
step, issuing nothing; and along every run of the machine, every issued
request carries a query of at least three characters, so no suggestion
request is ever issued for a short query. -/
theorem short_query_clears_and_never_requests :
    (∀ (m : SearchMachine) (t : Nat) (s : String), s.length < 3 →
      ∃ m2, step m (SearchEvent.input t s) = some m2 ∧
        m2.st.suggestions = [] ∧ m2.st.showSuggestions = false ∧
        m2.issued = m.issued ∧ m2.st.query = s) ∧
    (∀ (es : List SearchEvent) (m : SearchMachine), run es = some m →
      m.issued.all (fun p => decide (3 ≤ p.2.length)) = true) := by
  constructor
  · intro m t s hs
    have hlt : ¬ 3 ≤ s.length := by omega
    refine ⟨_, rfl, ?_, ?_, rfl, ?_⟩ <;> simp [handleInputChange, hlt]
  · intro es m hrun
    exact runFrom_issued_min_length es initialMachine m rfl hrun

/-- Witness for C3 at the concrete short query ab and the empty run. -/
theorem short_query_clears_and_never_requests_witness :
    (∃ m2, step initialMachine (SearchEvent.input 5 "ab") = some m2 ∧
      m2.st.suggestions = [] ∧ m2.st.showSuggestions = false ∧
      m2.issued = initialMachine.issued ∧ m2.st.query = "ab") ∧
    initialMachine.issued.all (fun p => decide (3 ≤ p.2.length)) = true :=
  ⟨short_query_clears_and_never_requests.1 initialMachine 5 "ab" (by decide),
   short_query_clears_and_never_requests.2 [] initialMachine rfl⟩

/-- The events of a burst of keystrokes, one input event per update. -/
def inputEvents (l : List (Nat × String)) : List SearchEvent :=
  l.map (fun p => SearchEvent.input p.1 p.2)

/-- Helper: runFrom distributes over appended event lists. -/
theorem runFrom_append (es1 es2 : List SearchEvent) :
    ∀ m, runFrom m (es1 ++ es2) =
      (runFrom m es1).bind (fun m2 => runFrom m2 es2) := by
  induction es1 with
  | nil => intro m; rfl
  | cons e es ih =>
    intro m
    simp only [List.cons_append, runFrom]
    cases step m e with
    | none => rfl
    | some m2 => exact ih m2

/-- Helper: a nonempty burst of input events always runs, leaves the
request log, the request counter, the in-flight set and the toasts
untouched, and leaves the debounce timer armed for the last update
with its deadline 500 ms after it. -/
theorem runFrom_inputs (pre : List (Nat × String)) (tl : Nat) (sl : String) :
    ∀ m : SearchMachine,
      ∃ m2, runFrom m (inputEvents (pre ++ [(tl, sl)])) = some m2 ∧
        m2.debounceTimer = some (tl + debounceDelayMs, sl) ∧
        m2.issued = m.issued ∧ m2.nextRequestId = m.nextRequestId ∧
        m2.inFlight = m.inFlight ∧ m2.st.query = sl ∧ m2.toasts = m.toasts := by
  induction pre with
  | nil =>
    intro m
    refine ⟨_, rfl, rfl, rfl, rfl, rfl, ?_, rfl⟩
    show (handleInputChange m.st sl).query = sl
    unfold handleInputChange
    split <;> rfl
  | cons hd rest ih =>
    intro m
    exact ih { m with st := handleInputChange m.st hd.2,
                      debounceTimer := some (hd.1 + debounceDelayMs, hd.2) }

/-- Claim C2: for every burst of query updates whose final update is a
string of at least three characters, where each intermediate update
arrives within the 500 ms window of its predecessor (so it cancels and
restarts the pending timer), and whose final update is followed by the
timer firing strictly more than 500 ms later with no further updates,
the machine issues exactly one suggestion request, and it is for the
final settled string. -/
theorem debounce_settles_to_one_request (pre : List (Nat × String))
    (tl T : Nat) (sl : String)
    (hlen : 3 ≤ sl.length)
    (hT : tl + debounceDelayMs < T)
    (hchain : List.Chain'
      (fun a b => b.1 ≤ a.1 + debounceDelayMs) (pre ++ [(tl, sl)])) :
    ∃ m, run (inputEvents (pre ++ [(tl, sl)]) ++ [SearchEvent.debounceFire T]) =
        some m ∧
      m.issued = [(0, sl)] ∧ m.st.query = sl := by
  obtain ⟨m1, hrun1, htimer, hissued, hnext, hinflight, hquery, htoasts⟩ :=
    runFrom_inputs pre tl sl initialMachine
  refine ⟨{ m1 with st := { m1.st with isLoadingSuggestions := true }, debounceTimer := none, inFlight := m1.inFlight ++ [(m1.nextRequestId, sl)], issued := m1.issued ++ [(m1.nextRequestId, sl)], nextRequestId := m1.nextRequestId + 1 }, ?_, ?_, ?_⟩
  · rw [run, runFrom_append, hrun1]
    show runFrom m1 [SearchEvent.debounceFire T] = some _
    simp only [runFrom, step, htimer]
    rw [if_pos hT, if_neg (by omega : ¬ sl.length < 3)]
  · show m1.issued ++ [(m1.nextRequestId, sl)] = [(0, sl)]
    rw [hissued, hnext]
    rfl
  · exact hquery

/-- Witness for C2 at a concrete two-keystroke burst. -/
theorem debounce_settles_to_one_request_witness :
    ∃ m, run (inputEvents ([((0 : Nat), "Lo")] ++ [((400 : Nat), "Lond")]) ++
        [SearchEvent.debounceFire 1000]) = some m ∧
      m.issued = [(0, "Lond")] ∧ m.st.query = "Lond" :=
  debounce_settles_to_one_request [(0, "Lo")] 400 1000 "Lond"
    (by decide) (by decide)
    (by simp [List.chain'_cons, debounceDelayMs])

/-- The failing network outcomes for a suggestion fetch: a transport
or parse rejection of the fetch call, a non-ok HTTP response, or an ok
response whose body fails to parse. -/
def suggestionFetchFails : HttpOutcome (List CitySuggestion) → Prop
  | .netError _ => True
  | .response ok _ body => ok = false ∨ ∃ msg, body = .error msg

/-- Claim C6, counterexample: for a suggestion request whose underlying
network fetch fails at the transport level, no notification is emitted:
fetchCitySuggestions swallows the rejection and resolves with the empty
array, so the component takes its success path and never reaches the
toast in the catch branch.  The list does become empty, but the claimed
user-visible notification does not happen. -/
theorem suggestion_network_failure_emits_no_toast :
    (debouncedFetchSuggestionsRun initialSearchState (some "key") "Lond"
      (.netError "connection refused")).2 = [] ∧
    (debouncedFetchSuggestionsRun initialSearchState (some "key") "Lond"
      (.netError "connection refused")).1.suggestions = [] := by
  constructor <;> rfl

/-- Claim C6, amended: for every suggestion request that is actually
issued (key present, query of length at least three with nonblank trim)
whose underlying fetch fails, the failure never propagates as a fatal
error: the suggestion list ends empty, the dropdown is hidden, the
loading flag is cleared and the query is untouched, so the component
keeps accepting input; but the user-visible toast is emitted only when
the failure is a parse failure of an ok response (the only failure that
rejects the promise and reaches the catch branch); transport failures
and non-ok responses degrade silently. -/
theorem suggestion_failure_degrades_without_toast_except_parse
    (st : SearchState) (k : String) (q : String)
    (net : HttpOutcome (List CitySuggestion))
    (hk : k ≠ "") (hq : 3 ≤ q.length) (htrim : trimString q ≠ "")
    (hfail : suggestionFetchFails net) :
    ((debouncedFetchSuggestionsRun st (some k) q net).1.suggestions = [] ∧
     (debouncedFetchSuggestionsRun st (some k) q net).1.showSuggestions = false ∧
     (debouncedFetchSuggestionsRun st (some k) q net).1.isLoadingSuggestions = false ∧
     (debouncedFetchSuggestionsRun st (some k) q net).1.query = st.query) ∧
    ((debouncedFetchSuggestionsRun st (some k) q net).2 ≠ [] ↔
      ∃ status msg, net = .response true status (.error msg)) := by
  have hkey : isMissingKey (some k) = false := by
    simp [isMissingKey, hk]
  have hcond : ¬ (trimString q = "" ∨ q.length < 3) := by
    push_neg
    exact ⟨htrim, by omega⟩
  have hlen : ¬ q.length < 3 := by omega
  cases net with
  | netError msg =>
    simp [debouncedFetchSuggestionsRun, hlen, suggestionRequestOutcome,
      fetchCitySuggestions, hkey, hcond, htrim, applySuggestionCompletion]
  | response ok status body =>
    cases ok with
    | true =>
      cases body with
      | ok results =>
        rcases hfail with h | ⟨msg, hmsg⟩
        · cases h
        · cases hmsg
      | error msg =>
        refine ⟨?_, ?_⟩
        · simp [debouncedFetchSuggestionsRun, hlen, suggestionRequestOutcome,
            fetchCitySuggestions, hkey, hcond, htrim, applySuggestionCompletion]
        · constructor
          · intro _
            exact ⟨status, msg, rfl⟩
          · intro _
            simp [debouncedFetchSuggestionsRun, hlen, suggestionRequestOutcome,
              fetchCitySuggestions, hkey, hcond, htrim, applySuggestionCompletion,
              suggestionErrorToast]
    | false =>
      simp [debouncedFetchSuggestionsRun, hlen, suggestionRequestOutcome,
        fetchCitySuggestions, hkey, hcond, htrim, applySuggestionCompletion]

/-- Witness for the amended C6 at a concrete transport failure. -/
theorem suggestion_failure_degrades_witness :
    ((debouncedFetchSuggestionsRun initialSearchState (some "key") "Lond"
        (.netError "down")).1.suggestions = [] ∧
     (debouncedFetchSuggestionsRun initialSearchState (some "key") "Lond"
        (.netError "down")).1.showSuggestions = false ∧
     (debouncedFetchSuggestionsRun initialSearchState (some "key") "Lond"
        (.netError "down")).1.isLoadingSuggestions = false ∧
     (debouncedFetchSuggestionsRun initialSearchState (some "key") "Lond"
        (.netError "down")).1.query = initialSearchState.query) ∧
    ((debouncedFetchSuggestionsRun initialSearchState (some "key") "Lond"
        (.netError "down")).2 ≠ [] ↔
      ∃ status msg, (HttpOutcome.netError "down" :
        HttpOutcome (List CitySuggestion)) = .response true status (.error msg)) :=
  suggestion_failure_degrades_without_toast_except_parse initialSearchState
    "key" "Lond" (.netError "down") (by decide) (by decide) (by decide)
    True.intro

/-! ## WeatherDisplay (src/components/weather/weather-display.tsx) -/

/-- The data the non-fallback branch of WeatherDisplay reads and
renders: the destructured fields, the kph to m/s wind conversion, and
the icon resolved from the condition code and the is_day flag.  The
toFixed and Math.round display rounding is not modelled; the underlying
rational values are kept. -/
structure WeatherView where
  locationName : String
  locationCountry : String
  conditionText : String
  icon : Icon
  tempC : Rat
  feelslikeC : Rat
  minTempC : Rat
  maxTempC : Rat
  humidity : Rat
  windSpeedMs : Rat
  pressureMb : Rat
  visKm : Rat
  cloud : Rat
  sunrise : String
  sunset : String
deriving DecidableEq, Repr

/-- What WeatherDisplay renders: the fallback card or the full view. -/
inductive RenderedDisplay where
  | fallbackCard
  | weatherView (v : WeatherView)
deriving DecidableEq, Repr

/-- The first element of forecast.forecastday, as accessed by the
guard expression data.forecast?.forecastday?.[0]. -/
def firstForecastDay (d : WeatherData) : Option WeatherApiForecastDayItem :=
  d.forecast.bind (fun f => f.forecastday.head?)

/-- WeatherDisplay of weather-display.tsx: when the data is absent,
carries an error, or lacks location, current or a first forecast day,
the fallback card is rendered; only otherwise are the fields
destructured, forecastday zero read, wind_kph divided by 3.6 and the
condition code passed to the icon resolver. -/
def weatherDisplay (data : Option WeatherData) : RenderedDisplay :=
  match data with
  | none => .fallbackCard
  | some d =>
    if d.error.isSome then .fallbackCard
    else
      match d.location, d.current, firstForecastDay d with
      | some loc, some cur, some today =>
        .weatherView
          { locationName := loc.name
            locationCountry := loc.country
            conditionText := cur.condition.text
            icon := resolveIcon cur.condition.code (cur.is_day == 1)
            tempC := cur.temp_c
            feelslikeC := cur.feelslike_c
            minTempC := today.day.mintemp_c
            maxTempC := today.day.maxtemp_c
            humidity := cur.humidity
            windSpeedMs := cur.wind_kph / (36 / 10)
            pressureMb := cur.pressure_mb
            visKm := cur.vis_km
            cloud := cur.cloud
            sunrise := today.astro.sunrise
            sunset := today.astro.sunset }
      | _, _, _ => .fallbackCard

/-- Claim C10: WeatherDisplay renders the fallback card exactly when
the data is absent, carries an error object, or lacks location, current
or a first forecast day; the forecastday zero access, the wind_kph
division and the condition-code access sit in the other branch of
weatherDisplay and are therefore evaluated only when every part is
present.  Absence of field access on missing parts is intrinsic: the
embedding is a total function over optional parts and the view branch
reads them only after they are matched as present. -/
theorem weatherDisplay_fallback_iff (data : Option WeatherData) :
    weatherDisplay data = .fallbackCard ↔
      (data = none ∨ ∃ d, data = some d ∧
        (d.error.isSome ∨ d.location = none ∨ d.current = none ∨
          firstForecastDay d = none)) := by
  cases data with
  | none => simp [weatherDisplay]
  | some d =>
    simp only [weatherDisplay, Option.some.injEq, reduceCtorEq, false_or]
    by_cases herr : d.error.isSome
    · simp [herr]
    · rw [if_neg herr]
      cases hloc : d.location with
      | none => simp [herr, hloc]
      | some loc =>
        cases hcur : d.current with
        | none => simp [herr, hloc, hcur]
        | some cur =>
          cases hday : firstForecastDay d with
          | none => simp [herr, hloc, hcur, hday]
          | some today => simp [herr, hloc, hcur, hday]

end WeatherWise
